import Mathlib

/-!
Verification of the chain-management subsystem of the obsidian-copilot
repository (ChainManager in `src/unnamed/part_000`, helpers in
`src/src/utils.ts`), as a shallow embedding in Lean 4.

The TypeScript class `ChainManager` orchestrates three conversational
pipelines (plain LLM chat, vault QA with retrieval, "copilot plus").
Its mutable state (the static `chain` and `retrievalChain` fields, the
persisted chain type, the memory store contents, the chat-model
manager's active model, the vector-store database handle) is embedded
as an explicit `ManagerState` record; the read-only collaborators
(settings getters, the embeddings manager, the model validator) become
an `Env` record.  Exceptions are modelled by returning the final state
together with an optional error message: TypeScript exceptions do not
roll back prior mutations, so a thrown path still reports the state at
the point of the throw.
-/

namespace ObsidianCopilot

/-- Constant `USER_SENDER` from `@/constants`.  Modelled from the spec: the
sender tag attributing a transcript entry to the user (the constants module
is not part of the examined sources). -/
def USER_SENDER : String := "user"

/-- Constant `AI_SENDER` from `@/constants`.  Modelled from the spec: the
sender tag attributing a transcript entry to the assistant; also used as the
message role when the o1 shim injects the system prompt as an AI message. -/
def AI_SENDER : String := "ai"

/-- Data model of `CustomModel` from `@/aiParams`: a configured chat model,
identified by the composite key (name, provider); `baseUrl` stands for the
optional endpoint override distinguishing otherwise identically keyed
entries. -/
structure CustomModel where
  name : String
  provider : String
  baseUrl : Option String := none
  deriving Repr, DecidableEq

/-- Data model of `ChatMessage` from `@/sharedState`: one transcript entry. -/
structure ChatMessage where
  sender : String
  message : String
  deriving Repr, DecidableEq

/-- The `ChainType` enum from `@/chainFactory`: the three supported modes. -/
inductive ChainType
  | llm_chain
  | vault_qa_chain
  | copilot_plus_chain
  deriving Repr, DecidableEq

/-- The value space of the `chainType` argument of `setChain` as seen by the
running JavaScript: besides the three enum members it can be
`undefined`/`null` (`nullValue`) or any other runtime value
(`otherValue s`), since `validateChainType` explicitly tests for
`undefined`/`null` and the switch has a `default` arm. -/
inductive ChainTypeValue
  | nullValue
  | known (t : ChainType)
  | otherValue (s : String)
  deriving Repr, DecidableEq

/-- Rendering of a `ChainTypeValue` used by the template string in the
`getChainRunner` error message. -/
def ChainTypeValue.render : ChainTypeValue → String
  | .nullValue => "null"
  | .known .llm_chain => "llm_chain"
  | .known .vault_qa_chain => "vault_qa"
  | .known .copilot_plus_chain => "copilot_plus"
  | .otherValue s => s

/-- One message of a `ChatPromptTemplate`: a system-role message, the
`MessagesPlaceholder("history")`, a `HumanMessagePromptTemplate`, or an
AI-role message (as produced by the `[AI_SENDER, ...]` tuple form). -/
inductive PromptMessage
  | system (content : String)
  | historyPlaceholder
  | humanTemplate (tmpl : String)
  | ai (content : String)
  deriving Repr, DecidableEq

/-- A chat prompt template is its ordered list of messages. -/
abbrev Prompt := List PromptMessage

/-- Predicate: a prompt message carries the system role. -/
def PromptMessage.isSystem : PromptMessage → Bool
  | .system _ => true
  | _ => false

/-- The `HybridRetriever` constructed in the VAULT_QA arm of `setChain`:
it records the database handle, chat model handle, embeddings handle, the
fixed `minSimilarityScore = 0.01`, `maxK` from settings, the (empty) salient
terms, and the debug flag.  Handles of the external index and embeddings
collaborators are represented by numeric identifiers. -/
structure HybridRetriever where
  db : Nat
  chatModel : Option CustomModel
  embeddingsAPI : Nat
  minSimilarityScore : ℚ
  maxK : Nat
  salientTerms : List String
  debug : Bool
  deriving Repr, DecidableEq

/-- A constructed pipeline.  `ChainFactory.createNewLLMChain` produces a
conversational chain from the model handle and prompt (the shared memory
handle is implicit: there is a single memory manager instance);
`ChainFactory.createConversationalRetrievalChain` produces a retrieval chain
from model, retriever and system message. -/
inductive Chain
  | llmChain (llm : Option CustomModel) (prompt : Prompt)
  | retrievalQA (llm : Option CustomModel) (retriever : HybridRetriever)
      (systemMessage : Option String)
  deriving Repr, DecidableEq

/-- Mutable state owned by or reachable from a `ChainManager` instance:
the two static pipeline slots, the chain type persisted through
`setChainType`/`getChainType`, the memory store contents (ordered
input/output pairs), the chat-model manager's active model, the
vector-store database handle, a count of `indexVaultToVectorStore` calls,
the user-visible notices raised, and the console log. -/
structure ManagerState where
  chain : Option Chain
  retrievalChain : Option Chain
  storedChainType : ChainTypeValue
  memory : List (String × String)
  activeModel : Option CustomModel
  db : Option Nat
  reindexCount : Nat
  notices : List String
  logs : List String
  deriving Repr, DecidableEq

/-- Read-only collaborators and settings consulted during a call:
`validateChatModel` composed with `getChatModel` (an arbitrary external
predicate on the active model), `getEmbeddingsAPI`, the outcome
`initializeDB` would produce, `getSettings().activeModels`, `getModelKey`,
`getSystemPrompt`, the prompt manager's default chat prompt,
`getSettings().maxSourceChunks`, the debug flag, and
`BUILTIN_CHAT_MODELS[0]` (the built-in default model). -/
structure Env where
  validateModel : Option CustomModel → Bool
  embeddingsAPI : Option Nat
  dbInitResult : Option Nat
  activeModels : List CustomModel
  modelKey : String
  systemPrompt : Option String
  chatPrompt : Prompt
  maxSourceChunks : Nat
  debug : Bool
  builtinDefault : CustomModel

/-- The `SetChainOptions` record from `@/aiParams`: an optional prompt
override and the reindex flag (the abort controller plays no role in the
state evolution). -/
structure SetChainOptions where
  prompt : Option Prompt := none
  refreshIndex : Bool := false
  deriving Repr, DecidableEq

/-- Accessor `ChainManager.getChain`. -/
def getChain (s : ManagerState) : Option Chain := s.chain

/-- Accessor `ChainManager.getRetrievalChain`. -/
def getRetrievalChain (s : ManagerState) : Option Chain := s.retrievalChain

/-- Character-level helper for the JavaScript `String.prototype.split("|")`
semantics: splits a character list at every "|", keeping empty segments. -/
def splitPipeAux : List Char → List (List Char)
  | [] => [[]]
  | c :: rest =>
    match splitPipeAux rest with
    | [] => [[c]]
    | hd :: tl => if c = '|' then [] :: hd :: tl else (c :: hd) :: tl

/-- Embedding of `modelKey.split("|")`: the list of "|"-separated segments
of the key (always nonempty, like the JavaScript original). -/
def splitPipe (s : String) : List String :=
  (splitPipeAux s.toList).map fun cs => String.mk cs

/-- The matching predicate of the `find` callback in both `findCustomModel`
variants: the model's name equals the segment before "|" and its provider
equals the segment after it (`undefined`, i.e. `none`, when the key has no
"|", which matches no string-valued provider). -/
def modelMatchesKey (modelKey : String) (m : CustomModel) : Bool :=
  let parts := splitPipe modelKey
  m.name == parts.headD "" && some m.provider == parts[1]?

/-- Private helper `ChainManager.findCustomModel` (lines 104-109): splits
the model key at "|" into name and provider and returns the first active
model matching both. -/
def findCustomModel (modelKey : String) (activeModels : List CustomModel) :
    Option CustomModel :=
  activeModels.find? (modelMatchesKey modelKey)

/-- Exported helper `findCustomModel` from `src/src/utils.ts` (lines
698-705): same first-match lookup, but throws "No model configuration found
for: ..." when no model matches. -/
def utilsFindCustomModel (modelKey : String) (activeModels : List CustomModel) :
    Except String CustomModel :=
  match findCustomModel modelKey activeModels with
  | some m => .ok m
  | none => .error ("No model configuration found for: " ++ modelKey)

/-- Error message raised (as Notice and Error) by the private
`validateChatModel` method. -/
def chatModelErrorMsg : String :=
  "Chat model is not initialized properly, check your API key in Copilot setting and make sure you have API access."

/-- Error message of `validateChainType`. -/
def noChainTypeErrorMsg : String := "No chain type set"

/-- Error message of `initializeQAChain` when `getEmbeddingsAPI` returns
nothing. -/
def embeddingsErrorMsg : String :=
  "Error getting embeddings API. Please check your settings."

/-- Error message of `initializeQAChain` when the database fails to
initialize. -/
def dbInitErrorMsg : String :=
  "Database failed to initialize. Please check your settings."

/-- The "handle index refresh if needed" tail of `initializeQAChain`: when
`options.refreshIndex` is set, `indexVaultToVectorStore` runs (counted in
`reindexCount`). -/
def reindexStep (s : ManagerState) (options : SetChainOptions) : ManagerState :=
  if options.refreshIndex then { s with reindexCount := s.reindexCount + 1 } else s

/-- Private method `ChainManager.initializeQAChain` (lines 237-260):
obtains the embeddings API (throwing if absent), lazily reinitializes the
database when it is not loaded (throwing if that fails), optionally
triggers a full reindex, and returns the pair (embeddingsAPI, db).
The returned state records the mutations performed up to the point of a
throw. -/
def initializeQAChain (env : Env) (s : ManagerState) (options : SetChainOptions) :
    ManagerState × Except String (Nat × Nat) :=
  match env.embeddingsAPI with
  | none => (s, .error embeddingsErrorMsg)
  | some api =>
    match s.db with
    | some db => (reindexStep s options, .ok (api, db))
    | none =>
      match env.dbInitResult with
      | none => (s, .error dbInitErrorMsg)
      | some db => (reindexStep { s with db := some db } options, .ok (api, db))

/-- Method `ChainManager.setChain` (lines 141-221).  Returns the final state
together with `some errorMessage` when an exception escapes the call and
`none` when the call returns normally.  Faithful points: an invalid chat
model only logs to the console and returns normally; `validateChainType`
throws only on `undefined`/`null`; the `default` switch arm re-runs
`validateChainType` (a no-op for a non-null value) and breaks; the
VAULT_QA arm rebuilds only the retrieval chain, the COPILOT_PLUS arm runs
the QA initialization and rebuilds only the plain chain; `setChainType` is
invoked last in each successful arm. -/
def setChain (env : Env) (s : ManagerState) (chainType : ChainTypeValue)
    (options : SetChainOptions) : ManagerState × Option String :=
  if !(env.validateModel s.activeModel) then
    ({ s with logs := s.logs ++ ["setChain failed: No chat model set."] }, none)
  else if chainType = .nullValue then
    (s, some noChainTypeErrorMsg)
  else
    let chatModel := s.activeModel
    let chatPrompt := env.chatPrompt
    match chainType with
    | .known .llm_chain =>
      let s1 := { s with
        chain := some (.llmChain chatModel (options.prompt.getD chatPrompt)) }
      ({ s1 with storedChainType := .known .llm_chain }, none)
    | .known .vault_qa_chain =>
      match initializeQAChain env s options with
      | (s1, .error e) => (s1, some e)
      | (s1, .ok (api, db)) =>
        let retriever : HybridRetriever := {
          db := db
          chatModel := chatModel
          embeddingsAPI := api
          minSimilarityScore := 1 / 100
          maxK := env.maxSourceChunks
          salientTerms := []
          debug := env.debug }
        let s2 := { s1 with
          retrievalChain := some (.retrievalQA chatModel retriever env.systemPrompt) }
        ({ s2 with storedChainType := .known .vault_qa_chain }, none)
    | .known .copilot_plus_chain =>
      match initializeQAChain env s options with
      | (s1, .error e) => (s1, some e)
      | (s1, .ok _) =>
        let s2 := { s1 with
          chain := some (.llmChain chatModel (options.prompt.getD chatPrompt)) }
        ({ s2 with storedChainType := .known .copilot_plus_chain }, none)
    | .nullValue => (s, some noChainTypeErrorMsg)
    | .otherValue _ => (s, none)

/-- The runner strategies of `getChainRunner`. -/
inductive RunnerKind
  | llm
  | vaultQA
  | copilotPlus
  deriving Repr, DecidableEq

/-- Private method `ChainManager.getChainRunner` (lines 223-235): dispatches
on the persisted chain type and throws "Unsupported chain type: ..." on any
other value. -/
def getChainRunner (s : ManagerState) : Except String RunnerKind :=
  match s.storedChainType with
  | .known .llm_chain => .ok .llm
  | .known .vault_qa_chain => .ok .vaultQA
  | .known .copilot_plus_chain => .ok .copilotPlus
  | ct => .error ("Unsupported chain type: " ++ ct.render)

/-- Tail of `createChainWithNewModel` after the chat model is set: the
`setChain(getChainType())` call inside the `try`, the success log
"Setting model to ...", and the `catch` that logs the error instead of
propagating it. -/
def finishSetChain (env : Env) (s : ManagerState) (newModelKey : String) :
    ManagerState :=
  match setChain env s s.storedChainType {} with
  | (s2, none) =>
    { s2 with logs := s2.logs ++ ["Setting model to " ++ newModelKey] }
  | (s2, some e) =>
    { s2 with logs := s2.logs ++ ["createChainWithNewModel failed: " ++ e] }

/-- Method `ChainManager.createChainWithNewModel` (lines 119-139): resolves
the configured model key against the active models, falls back to
`BUILTIN_CHAT_MODELS[0]` (logging the substitution) when unresolved, sets
the chat model, re-invokes `setChain` for the currently persisted chain
type, and catches every error (logging it) so that nothing propagates. -/
def createChainWithNewModel (env : Env) (s : ManagerState) : ManagerState :=
  match findCustomModel env.modelKey env.activeModels with
  | some m =>
    finishSetChain env { s with activeModel := some m } env.modelKey
  | none =>
    finishSetChain env
      { s with
        logs := s.logs ++
          ["Resetting default model. No model configuration found for: " ++
            env.modelKey]
        activeModel := some env.builtinDefault }
      (env.builtinDefault.name ++ "|" ++ env.builtinDefault.provider)

/-- Embedding of the JavaScript `String.prototype.startsWith`, written at
the character level so it evaluates structurally. -/
def strStartsWith (s pre : String) : Bool :=
  pre.toList.isPrefixOf s.toList

/-- Options record of `ChainManager.runChain`. -/
structure RunChainOptions where
  debug : Bool := false
  ignoreSystemMessage : Bool := false
  deriving Repr, DecidableEq

/-- The state-evolving prefix of `ChainManager.runChain` (lines 273-305),
up to and including runner selection: `validateChatModel` (Notice plus
throw on an unusable model), `validateChainInitialization` (silent rebuild
via `setChain(getChainType())` when no chain is present), the reasoning
model check (`modelName.startsWith("o1")`), the prompt rebuild for
`ignoreSystemMessage` or o1 models (with the o1 shim converting the system
prompt into a leading AI message), the `setChain` call with the rebuilt
prompt, and `getChainRunner`.  Returns the final state, the effective
prompt that was constructed (when the rebuild branch ran), and either the
selected runner or the escaping error. -/
def runChainPrep (env : Env) (s : ManagerState) (options : RunChainOptions) :
    ManagerState × Option Prompt × Except String RunnerKind :=
  if !(env.validateModel s.activeModel) then
    ({ s with notices := s.notices ++ [chatModelErrorMsg] }, none,
      .error chatModelErrorMsg)
  else
    let sA :=
      if s.chain.isNone then (setChain env s s.storedChainType {}).1 else s
    let modelName := (sA.activeModel.map CustomModel.name).getD ""
    let isO1Model := strStartsWith modelName "o1"
    if options.ignoreSystemMessage || isO1Model then
      let base : Prompt := [.historyPlaceholder, .humanTemplate "{input}"]
      let effectivePrompt : Prompt :=
        if isO1Model then .ai (env.systemPrompt.getD "") :: base else base
      let sB := (setChain env sA sA.storedChainType { prompt := some effectivePrompt }).1
      (sB, some effectivePrompt, getChainRunner sB)
    else
      (sA, none, getChainRunner sA)

/-- The loop of `updateMemoryWithLoadedMessages` (lines 317-325), written
with the source's index arithmetic: starting at index `i` and stepping by
2, saves the pair (`messages[i].message`, `messages[i+1].message`) exactly
when both entries exist and the first is attributed to the user, and
returns the ordered list of saved pairs. -/
def loadMessagesLoop (messages : List ChatMessage) (i : Nat) :
    List (String × String) :=
  if _h : i < messages.length then
    (match messages[i]?, messages[i + 1]? with
      | some userMsg, some aiMsg =>
        if userMsg.sender == USER_SENDER
          then [(userMsg.message, aiMsg.message)]
          else []
      | _, _ => []) ++ loadMessagesLoop messages (i + 2)
  else []
termination_by messages.length - i

/-- Method `ChainManager.updateMemoryWithLoadedMessages` (lines 315-326):
clears the chat memory, then replays the transcript two entries at a time,
saving each well-formed (user, AI) pair via `saveContext`. -/
def updateMemoryWithLoadedMessages (s : ManagerState)
    (messages : List ChatMessage) : ManagerState :=
  { s with memory := loadMessagesLoop messages 0 }

/-- Spec-side reformulation of the replay, written from the spec's words:
walk the transcript in consecutive pairs; a pair is committed only when
both entries exist and the first is attributed to the user; malformed
tails (an unpaired trailing entry) and pairs with wrong attribution are
skipped. -/
def pairsSpec : List ChatMessage → List (String × String)
  | u :: a :: rest =>
    (if u.sender == USER_SENDER then [(u.message, a.message)] else []) ++
      pairsSpec rest
  | _ => []

/-- Refinement lemma: the source's index-stepping loop computes exactly the
spec-side pairing of the remaining transcript. -/
theorem loadMessagesLoop_eq_pairsSpec (messages : List ChatMessage) (i : Nat) :
    loadMessagesLoop messages i = pairsSpec (messages.drop i) := by
  rw [loadMessagesLoop]
  split
  case isTrue h =>
    rw [loadMessagesLoop_eq_pairsSpec messages (i + 2)]
    rw [List.drop_eq_getElem_cons h]
    by_cases h1 : i + 1 < messages.length
    · rw [List.drop_eq_getElem_cons h1]
      rw [List.getElem?_eq_getElem h, List.getElem?_eq_getElem h1]
      rfl
    · have hlen : messages.length = i + 1 := by omega
      have hdrop1 : messages.drop (i + 1) = [] :=
        List.drop_eq_nil_of_le (by omega)
      have hdrop2 : messages.drop (i + 2) = [] :=
        List.drop_eq_nil_of_le (by omega)
      have hnone : messages[i + 1]? = none := by
        rw [List.getElem?_eq_none]
        omega
      rw [hdrop1, hdrop2, List.getElem?_eq_getElem h, hnone]
      simp [pairsSpec]
  case isFalse h =>
    have hdrop : messages.drop i = [] := List.drop_eq_nil_of_le (by omega)
    rw [hdrop]
    rfl
termination_by messages.length - i

/-- Concrete configured model used by the witnesses. -/
def sampleModel : CustomModel := { name := "gpt-4", provider := "openai" }

/-- Concrete reasoning-only model (its name starts with "o1"). -/
def o1Model : CustomModel := { name := "o1-preview", provider := "openai" }

/-- Concrete manager state used by the witnesses: fresh manager with a
valid active model and no loaded chains or database. -/
def baseState : ManagerState := {
  chain := none
  retrievalChain := none
  storedChainType := .known .llm_chain
  memory := []
  activeModel := some sampleModel
  db := none
  reindexCount := 0
  notices := []
  logs := [] }

/-- Concrete environment used by the witnesses: the model validator
accepts any present model, embeddings and database initialization are
available. -/
def envAllValid : Env := {
  validateModel := fun m => m.isSome
  embeddingsAPI := some 7
  dbInitResult := some 3
  activeModels := [sampleModel]
  modelKey := "gpt-4|openai"
  systemPrompt := some "You are a helpful assistant."
  chatPrompt := [.system "sys", .historyPlaceholder, .humanTemplate "{input}"]
  maxSourceChunks := 3
  debug := false
  builtinDefault := sampleModel }

/-- Environment whose model validator rejects everything. -/
def envNoModel : Env := { envAllValid with validateModel := fun _ => false }

/-- Environment with no embeddings API configured. -/
def envNoEmbeddings : Env := { envAllValid with embeddingsAPI := none }

/-- Concrete retrieval pipeline standing for a previously built one. -/
def previousRetrievalChain : Chain :=
  .retrievalQA (some sampleModel)
    { db := 3
      chatModel := some sampleModel
      embeddingsAPI := 7
      minSimilarityScore := 1 / 100
      maxK := 3
      salientTerms := []
      debug := false }
    (some "old system prompt")

/-- State that already holds a retrieval pipeline. -/
def stateWithRetrieval : ManagerState :=
  { baseState with retrievalChain := some previousRetrievalChain }

/-- Helper: `initializeQAChain` only touches the database handle and the
reindex counter; every other state field is preserved, on both the normal
and the throwing paths. -/
theorem initializeQAChain_preserves (env : Env) (s : ManagerState)
    (opts : SetChainOptions) :
    ((initializeQAChain env s opts).1).chain = s.chain ∧
    ((initializeQAChain env s opts).1).retrievalChain = s.retrievalChain ∧
    ((initializeQAChain env s opts).1).storedChainType = s.storedChainType ∧
    ((initializeQAChain env s opts).1).memory = s.memory ∧
    ((initializeQAChain env s opts).1).activeModel = s.activeModel ∧
    ((initializeQAChain env s opts).1).notices = s.notices ∧
    ((initializeQAChain env s opts).1).logs = s.logs := by
  unfold initializeQAChain reindexStep
  rcases env.embeddingsAPI with _ | api
  · simp
  · rcases s.db with _ | d
    · rcases env.dbInitResult with _ | d'
      · simp
      · rcases opts.refreshIndex with _ | _ <;> simp
    · rcases opts.refreshIndex with _ | _ <;> simp

/-- Helper: `setChain` never touches the memory contents, the active model,
or the notices, and only ever appends to the console log. -/
theorem setChain_frame (env : Env) (s : ManagerState) (ct : ChainTypeValue)
    (opts : SetChainOptions) :
    ((setChain env s ct opts).1).memory = s.memory ∧
    ((setChain env s ct opts).1).activeModel = s.activeModel ∧
    ((setChain env s ct opts).1).notices = s.notices ∧
    ∃ tail, ((setChain env s ct opts).1).logs = s.logs ++ tail := by
  unfold setChain
  split
  · exact ⟨rfl, rfl, rfl, ["setChain failed: No chat model set."], rfl⟩
  split
  · exact ⟨rfl, rfl, rfl, [], by simp⟩
  split
  · exact ⟨rfl, rfl, rfl, [], by simp⟩
  · split
    next s1 e heq =>
      have hpres := initializeQAChain_preserves env s opts
      rw [heq] at hpres
      exact ⟨hpres.2.2.2.1, hpres.2.2.2.2.1, hpres.2.2.2.2.2.1, [],
        by simpa using hpres.2.2.2.2.2.2⟩
    next s1 api db heq =>
      have hpres := initializeQAChain_preserves env s opts
      rw [heq] at hpres
      exact ⟨hpres.2.2.2.1, hpres.2.2.2.2.1, hpres.2.2.2.2.2.1, [],
        by simpa using hpres.2.2.2.2.2.2⟩
  · split
    next s1 e heq =>
      have hpres := initializeQAChain_preserves env s opts
      rw [heq] at hpres
      exact ⟨hpres.2.2.2.1, hpres.2.2.2.2.1, hpres.2.2.2.2.2.1, [],
        by simpa using hpres.2.2.2.2.2.2⟩
    next s1 p heq =>
      have hpres := initializeQAChain_preserves env s opts
      rw [heq] at hpres
      exact ⟨hpres.2.2.2.1, hpres.2.2.2.2.1, hpres.2.2.2.2.2.1, [],
        by simpa using hpres.2.2.2.2.2.2⟩
  · exact ⟨rfl, rfl, rfl, [], by simp⟩
  · exact ⟨rfl, rfl, rfl, [], by simp⟩

/-- Helper: full evaluation of `setChain` when the chat model is not
usable: console log and normal return. -/
theorem setChain_invalid_model_eq (env : Env) (s : ManagerState)
    (ct : ChainTypeValue) (opts : SetChainOptions)
    (h : env.validateModel s.activeModel = false) :
    setChain env s ct opts =
      ({ s with logs := s.logs ++ ["setChain failed: No chat model set."] },
        none) := by
  unfold setChain
  rw [h]
  rfl

/-- Claim C1, counterexample.  With no usable chat model, `setChain`
returns normally (no error is raised) and raises no user-visible notice,
contradicting the claim that it fails fast with a notice and an error. -/
theorem C1_counterexample :
    (setChain envNoModel baseState (.known .llm_chain) {}).2 = none ∧
    (setChain envNoModel baseState (.known .llm_chain) {}).1.notices =
      baseState.notices := by
  exact ⟨rfl, rfl⟩

/-- Claim C1 (amended): for every chain type and options, when the Provider
Model Registry reports no usable chat model, `setChain` logs a console
error and returns normally, leaving the entire state unchanged except for
that log entry; no notice is raised and no error is thrown.  The
notice-and-throw behaviour belongs to the separate `validateChatModel`
method used by `runChain`. -/
theorem C1_setChain_invalid_model_returns_normally
    (env : Env) (s : ManagerState) (ct : ChainTypeValue)
    (opts : SetChainOptions)
    (h : env.validateModel s.activeModel = false) :
    setChain env s ct opts =
      ({ s with logs := s.logs ++ ["setChain failed: No chat model set."] },
        none) := by
  unfold setChain
  rw [h]
  rfl

/-- Claim C1, witness: the amended theorem applied at a concrete
environment that rejects the chat model. -/
theorem C1_witness :
    setChain envNoModel baseState (.known .llm_chain) {} =
      ({ baseState with
          logs := baseState.logs ++ ["setChain failed: No chat model set."] },
        none) :=
  C1_setChain_invalid_model_returns_normally envNoModel baseState
    (.known .llm_chain) {} rfl

/-- Claim C2, counterexample.  With a usable chat model, calling `setChain`
with the unsupported value "bogus" completes normally with no effect and
without raising any error — contradicting the claim that it raises an
"unsupported chain type" error. -/
theorem C2_counterexample :
    setChain envAllValid baseState (.otherValue "bogus") {} =
      (baseState, none) := by
  rfl

/-- Claim C2 (amended): for a usable chat model, `setChain` with any
non-null unsupported chain type value completes normally without any
effect (the state is returned unchanged and no error is raised), because
the default switch arm only re-runs the null check; the "Unsupported chain
type" error is raised by `getChainRunner` when a turn is dispatched under
that persisted chain type. -/
theorem C2_unsupported_chain_type_no_error
    (env : Env) (s : ManagerState) (str : String) (opts : SetChainOptions)
    (h : env.validateModel s.activeModel = true) :
    setChain env s (.otherValue str) opts = (s, none) ∧
    getChainRunner { s with storedChainType := .otherValue str } =
      .error ("Unsupported chain type: " ++ str) := by
  constructor
  · unfold setChain
    rw [h]
    rfl
  · rfl

/-- Claim C2, witness: the amended theorem applied at the concrete value
"bogus" under the all-valid environment. -/
theorem C2_witness :
    (setChain envAllValid baseState (.otherValue "bogus") {} =
      (baseState, none)) ∧
    getChainRunner { baseState with storedChainType := .otherValue "bogus" } =
      .error ("Unsupported chain type: " ++ "bogus") :=
  C2_unsupported_chain_type_no_error envAllValid baseState "bogus" {} rfl

/-- Claim C3: `updateMemoryWithLoadedMessages` clears the memory and
replays the transcript two entries at a time, committing a pair exactly
when both entries exist and the first is attributed to the user (malformed
pairs are skipped, nothing is raised — the function is total); in
particular the two concrete transcripts of the claim produce exactly one
pair, respectively an empty memory, regardless of the prior memory. -/
theorem C3_updateMemoryWithLoadedMessages_correct
    (s : ManagerState) (messages : List ChatMessage) :
    (updateMemoryWithLoadedMessages s messages).memory = pairsSpec messages ∧
    (updateMemoryWithLoadedMessages s
        [{ sender := USER_SENDER, message := "hi" },
         { sender := AI_SENDER, message := "hello" }]).memory =
      [("hi", "hello")] ∧
    (updateMemoryWithLoadedMessages s
        [{ sender := USER_SENDER, message := "hi" }]).memory = [] := by
  refine ⟨?_, ?_, ?_⟩
  · show loadMessagesLoop messages 0 = pairsSpec messages
    rw [loadMessagesLoop_eq_pairsSpec, List.drop_zero]
  · show loadMessagesLoop _ 0 = _
    rw [loadMessagesLoop_eq_pairsSpec]
    decide
  · show loadMessagesLoop _ 0 = _
    rw [loadMessagesLoop_eq_pairsSpec]
    decide

/-- Claim C4: with a usable chat model but no embeddings API configured,
`setChain(VAULT_QA_CHAIN)` raises exactly the initialization error of
`initializeQAChain` and leaves the whole state — in particular the
previously active retrieval pipeline, still returned by
`getRetrievalChain` — unchanged. -/
theorem C4_vault_qa_no_embeddings_raises
    (env : Env) (s : ManagerState) (opts : SetChainOptions)
    (hv : env.validateModel s.activeModel = true)
    (he : env.embeddingsAPI = none) :
    setChain env s (.known .vault_qa_chain) opts =
      (s, some embeddingsErrorMsg) ∧
    getRetrievalChain (setChain env s (.known .vault_qa_chain) opts).1 =
      getRetrievalChain s := by
  have h1 : setChain env s (.known .vault_qa_chain) opts =
      (s, some embeddingsErrorMsg) := by
    unfold setChain initializeQAChain
    rw [hv, he]
    rfl
  exact ⟨h1, by rw [h1]⟩

/-- Claim C4, witness: the theorem applied at a state holding a previous
retrieval pipeline and an environment with no embeddings API. -/
theorem C4_witness :
    (setChain envNoEmbeddings stateWithRetrieval (.known .vault_qa_chain) {} =
      (stateWithRetrieval, some embeddingsErrorMsg)) ∧
    getRetrievalChain
        (setChain envNoEmbeddings stateWithRetrieval
          (.known .vault_qa_chain) {}).1 =
      getRetrievalChain stateWithRetrieval :=
  C4_vault_qa_no_embeddings_raises envNoEmbeddings stateWithRetrieval {}
    rfl rfl

/-- Helper: full evaluation of the LLM_CHAIN arm of `setChain` for a
usable chat model. -/
theorem setChain_llm_eq (env : Env) (s : ManagerState) (opts : SetChainOptions)
    (hv : env.validateModel s.activeModel = true) :
    setChain env s (.known .llm_chain) opts =
      ({ s with
          chain := some (.llmChain s.activeModel (opts.prompt.getD env.chatPrompt))
          storedChainType := .known .llm_chain }, none) := by
  unfold setChain
  rw [hv]
  rfl

/-- Helper: `finishSetChain` never changes the active model. -/
theorem finishSetChain_activeModel (env : Env) (s : ManagerState) (k : String) :
    (finishSetChain env s k).activeModel = s.activeModel := by
  unfold finishSetChain
  have hframe := (setChain_frame env s s.storedChainType {}).2.1
  rcases hsc : setChain env s s.storedChainType {} with ⟨s2, err⟩
  rw [hsc] at hframe
  rcases err with _ | e <;> simpa using hframe

/-- Helper: `finishSetChain` only appends to the log. -/
theorem finishSetChain_logs (env : Env) (s : ManagerState) (k : String) :
    ∃ tail, (finishSetChain env s k).logs = s.logs ++ tail := by
  unfold finishSetChain
  have hframe := (setChain_frame env s s.storedChainType {}).2.2.2
  rcases hsc : setChain env s s.storedChainType {} with ⟨s2, err⟩
  rw [hsc] at hframe
  obtain ⟨tail, htail⟩ := hframe
  simp only at htail
  rcases err with _ | e
  · exact ⟨tail ++ ["Setting model to " ++ k], by simp [htail]⟩
  · exact ⟨tail ++ ["createChainWithNewModel failed: " ++ e], by simp [htail]⟩

/-- Helper: when the persisted mode is LLM_CHAIN and the model is usable,
`finishSetChain` installs the freshly built conversational chain for the
current model and default prompt. -/
theorem finishSetChain_chain_llm (env : Env) (s : ManagerState) (k : String)
    (hv : env.validateModel s.activeModel = true)
    (ht : s.storedChainType = .known .llm_chain) :
    (finishSetChain env s k).chain =
      some (.llmChain s.activeModel env.chatPrompt) := by
  unfold finishSetChain
  rw [ht, setChain_llm_eq env s {} hv]
  rfl

/-- Claim C5: when the configured model key resolves to no custom model,
`createChainWithNewModel` activates the built-in default model
`BUILTIN_CHAT_MODELS[0]`, logs the substitution, re-invokes `setChain` for
the persisted mode (observable: under LLM_CHAIN mode with a usable model
the active chain becomes the freshly built one for the default model), and
— being a total function whose `setChain` errors are all consumed by the
`catch` arm — never propagates an exception. -/
theorem C5_createChainWithNewModel_fallback
    (env : Env) (s : ManagerState)
    (h : findCustomModel env.modelKey env.activeModels = none) :
    (createChainWithNewModel env s).activeModel = some env.builtinDefault ∧
    ("Resetting default model. No model configuration found for: " ++
        env.modelKey) ∈ (createChainWithNewModel env s).logs ∧
    (env.validateModel (some env.builtinDefault) = true →
      s.storedChainType = .known .llm_chain →
      (createChainWithNewModel env s).chain =
        some (.llmChain (some env.builtinDefault) env.chatPrompt)) := by
  have hbody : createChainWithNewModel env s =
      finishSetChain env
        { s with
          logs := s.logs ++
            ["Resetting default model. No model configuration found for: " ++
              env.modelKey]
          activeModel := some env.builtinDefault }
        (env.builtinDefault.name ++ "|" ++ env.builtinDefault.provider) := by
    unfold createChainWithNewModel
    rw [h]
  refine ⟨?_, ?_, ?_⟩
  · rw [hbody, finishSetChain_activeModel]
  · rw [hbody]
    obtain ⟨tail, htail⟩ := finishSetChain_logs env
      { s with
        logs := s.logs ++
          ["Resetting default model. No model configuration found for: " ++
            env.modelKey]
        activeModel := some env.builtinDefault }
      (env.builtinDefault.name ++ "|" ++ env.builtinDefault.provider)
    rw [htail]
    simp
  · intro hv ht
    rw [hbody, finishSetChain_chain_llm]
    · exact hv
    · exact ht

/-- Claim C5, witness: the theorem applied at an environment whose model
key "ghost|nowhere" matches none of the active models. -/
theorem C5_witness :
    ((createChainWithNewModel { envAllValid with modelKey := "ghost|nowhere" }
        baseState).activeModel =
      some ({ envAllValid with modelKey := "ghost|nowhere" }).builtinDefault) ∧
    ("Resetting default model. No model configuration found for: " ++
        "ghost|nowhere") ∈
      (createChainWithNewModel { envAllValid with modelKey := "ghost|nowhere" }
        baseState).logs ∧
    (({ envAllValid with modelKey := "ghost|nowhere" }).validateModel
        (some ({ envAllValid with modelKey := "ghost|nowhere" }).builtinDefault) =
          true →
      baseState.storedChainType = .known .llm_chain →
      (createChainWithNewModel { envAllValid with modelKey := "ghost|nowhere" }
          baseState).chain =
        some (.llmChain
          (some ({ envAllValid with modelKey := "ghost|nowhere" }).builtinDefault)
          ({ envAllValid with modelKey := "ghost|nowhere" }).chatPrompt)) :=
  C5_createChainWithNewModel_fallback
    { envAllValid with modelKey := "ghost|nowhere" } baseState (by decide)

/-- Helper: full evaluation of the VAULT_QA_CHAIN arm of `setChain` when
the QA initialization succeeds. -/
theorem setChain_vault_eq (env : Env) (s : ManagerState) (opts : SetChainOptions)
    (s1 : ManagerState) (api db : Nat)
    (hv : env.validateModel s.activeModel = true)
    (hinit : initializeQAChain env s opts = (s1, .ok (api, db))) :
    setChain env s (.known .vault_qa_chain) opts =
      ({ s1 with
          retrievalChain := some (.retrievalQA s.activeModel
            { db := db
              chatModel := s.activeModel
              embeddingsAPI := api
              minSimilarityScore := 1 / 100
              maxK := env.maxSourceChunks
              salientTerms := []
              debug := env.debug } env.systemPrompt)
          storedChainType := .known .vault_qa_chain }, none) := by
  unfold setChain
  rw [hv, hinit]
  rfl

/-- Helper: the VAULT_QA_CHAIN arm propagates a QA initialization error. -/
theorem setChain_vault_err (env : Env) (s : ManagerState) (opts : SetChainOptions)
    (s1 : ManagerState) (e : String)
    (hv : env.validateModel s.activeModel = true)
    (hinit : initializeQAChain env s opts = (s1, .error e)) :
    setChain env s (.known .vault_qa_chain) opts = (s1, some e) := by
  unfold setChain
  rw [hv, hinit]
  rfl

/-- Helper: full evaluation of the COPILOT_PLUS_CHAIN arm of `setChain`
when the QA initialization succeeds. -/
theorem setChain_copilot_eq (env : Env) (s : ManagerState) (opts : SetChainOptions)
    (s1 : ManagerState) (r : Nat × Nat)
    (hv : env.validateModel s.activeModel = true)
    (hinit : initializeQAChain env s opts = (s1, .ok r)) :
    setChain env s (.known .copilot_plus_chain) opts =
      ({ s1 with
          chain := some (.llmChain s.activeModel (opts.prompt.getD env.chatPrompt))
          storedChainType := .known .copilot_plus_chain }, none) := by
  unfold setChain
  rw [hv, hinit]
  rfl

/-- Helper: the COPILOT_PLUS_CHAIN arm propagates a QA initialization
error. -/
theorem setChain_copilot_err (env : Env) (s : ManagerState) (opts : SetChainOptions)
    (s1 : ManagerState) (e : String)
    (hv : env.validateModel s.activeModel = true)
    (hinit : initializeQAChain env s opts = (s1, .error e)) :
    setChain env s (.known .copilot_plus_chain) opts = (s1, some e) := by
  unfold setChain
  rw [hv, hinit]
  rfl

/-- Helper: `setChain` with a null chain type throws "No chain type set". -/
theorem setChain_null_eq (env : Env) (s : ManagerState) (opts : SetChainOptions)
    (hv : env.validateModel s.activeModel = true) :
    setChain env s .nullValue opts = (s, some noChainTypeErrorMsg) := by
  unfold setChain
  rw [hv]
  rfl

/-- Helper: `setChain` with a non-null unsupported value returns normally
without effect. -/
theorem setChain_other_eq (env : Env) (s : ManagerState) (str : String)
    (opts : SetChainOptions)
    (hv : env.validateModel s.activeModel = true) :
    setChain env s (.otherValue str) opts = (s, none) := by
  unfold setChain
  rw [hv]
  rfl

/-- Helper: a successful `initializeQAChain` leaves the database handle
loaded with the database it returned. -/
theorem initializeQAChain_db (env : Env) (s : ManagerState)
    (opts : SetChainOptions) (s1 : ManagerState) (api db : Nat)
    (hinit : initializeQAChain env s opts = (s1, .ok (api, db))) :
    s1.db = some db := by
  unfold initializeQAChain at hinit
  rcases he : env.embeddingsAPI with _ | a
  · rw [he] at hinit
    simp at hinit
  · rw [he] at hinit
    rcases hdb : s.db with _ | d
    · rw [hdb] at hinit
      rcases hdi : env.dbInitResult with _ | d'
      · rw [hdi] at hinit
        simp at hinit
      · rw [hdi] at hinit
        simp only [Prod.mk.injEq, Except.ok.injEq] at hinit
        obtain ⟨hs1, -, hd⟩ := hinit
        rw [← hs1, ← hd]
        unfold reindexStep
        rcases opts.refreshIndex with _ | _ <;> simp
    · rw [hdb] at hinit
      simp only [Prod.mk.injEq, Except.ok.injEq] at hinit
      obtain ⟨hs1, -, hd⟩ := hinit
      rw [← hs1, ← hd]
      unfold reindexStep
      rcases opts.refreshIndex with _ | _ <;> simp [hdb]

/-- Claim C6: in `runChain`, whenever the active model's name starts with
"o1" or the caller passes `ignoreSystemMessage`, the prompt handed to the
pipeline is rebuilt with no system-role message: it is exactly an optional
leading AI-role message carrying the configured system prompt — present
precisely for the o1 family — followed by the history placeholder and the
human turn. -/
theorem C6_runChain_reasoning_model_prompt
    (env : Env) (s : ManagerState) (options : RunChainOptions)
    (hv : env.validateModel s.activeModel = true)
    (h : options.ignoreSystemMessage = true ∨
      strStartsWith ((s.activeModel.map CustomModel.name).getD "") "o1" = true) :
    ∃ p : Prompt,
      (runChainPrep env s options).2.1 = some p ∧
      (∀ m ∈ p, m.isSystem = false) ∧
      p = (if strStartsWith ((s.activeModel.map CustomModel.name).getD "") "o1"
            then [PromptMessage.ai (env.systemPrompt.getD "")] else []) ++
          [PromptMessage.historyPlaceholder, PromptMessage.humanTemplate "{input}"] := by
  have ham := (setChain_frame env s s.storedChainType {}).2.1
  refine ⟨(if strStartsWith ((s.activeModel.map CustomModel.name).getD "") "o1"
      then [PromptMessage.ai (env.systemPrompt.getD "")] else []) ++
      [PromptMessage.historyPlaceholder, PromptMessage.humanTemplate "{input}"],
    ?_, ?_, rfl⟩
  · by_cases hc : s.chain.isNone = true <;>
    rcases hi : options.ignoreSystemMessage with _ | _ <;>
    rcases ho : strStartsWith ((s.activeModel.map CustomModel.name).getD "") "o1"
      with _ | _ <;>
      simp_all [runChainPrep, hv, ham]
  · by_cases ho : strStartsWith ((s.activeModel.map CustomModel.name).getD "") "o1"
      = true <;>
      simp [ho, PromptMessage.isSystem]

/-- State whose active model is the reasoning-only o1 variant. -/
def o1State : ManagerState := { baseState with activeModel := some o1Model }

/-- Claim C6, witness: the theorem applied at the o1 model (its name
"o1-preview" starts with "o1") with default options. -/
theorem C6_witness :
    ∃ p : Prompt,
      (runChainPrep envAllValid o1State {}).2.1 = some p ∧
      (∀ m ∈ p, m.isSystem = false) ∧
      p = (if strStartsWith ((o1State.activeModel.map CustomModel.name).getD "")
              "o1"
            then [PromptMessage.ai (envAllValid.systemPrompt.getD "")] else []) ++
          [PromptMessage.historyPlaceholder, PromptMessage.humanTemplate "{input}"] :=
  C6_runChain_reasoning_model_prompt envAllValid o1State {} rfl (Or.inr rfl)

/-- Claim C7, counterexample.  Two active models share the composite key
("m", "p") — the uniqueness invariant is violated — yet both lookup
functions silently return the first of them instead of failing loudly. -/
theorem C7_counterexample :
    (let dupA : CustomModel := { name := "m", provider := "p" }
     let dupB : CustomModel :=
       { name := "m", provider := "p", baseUrl := some "https://alt.example" }
     modelMatchesKey "m|p" dupA = true ∧
     modelMatchesKey "m|p" dupB = true ∧
     dupA ≠ dupB ∧
     findCustomModel "m|p" [dupA, dupB] = some dupA ∧
     utilsFindCustomModel "m|p" [dupA, dupB] = .ok dupA) := by
  refine ⟨by decide, by decide, by decide, by decide, by rfl⟩

/-- Claim C7 (amended): the lookup by composite key returns the first
matching model in configuration order — duplicates of the key are not
detected, so an arbitrary (the first) match is returned silently; the
lookup fails loudly only when no active model matches the key at all, and
only the `utils.ts` variant throws ("No model configuration found for:
..."), while the ChainManager variant returns undefined. -/
theorem C7_lookup_first_match
    (key : String) (pre post : List CustomModel) (m : CustomModel)
    (hpre : ∀ x ∈ pre, modelMatchesKey key x = false)
    (hm : modelMatchesKey key m = true) :
    findCustomModel key (pre ++ m :: post) = some m ∧
    utilsFindCustomModel key (pre ++ m :: post) = .ok m ∧
    ∀ models : List CustomModel, findCustomModel key models = none →
      utilsFindCustomModel key models =
        .error ("No model configuration found for: " ++ key) := by
  have h1 : findCustomModel key (pre ++ m :: post) = some m := by
    unfold findCustomModel
    induction pre with
    | nil => simp [List.find?_cons_of_pos, hm]
    | cons x xs ih =>
      have hx := hpre x (by simp)
      rw [List.cons_append, List.find?_cons_of_neg _ (by simp [hx])]
      exact ih fun y hy => hpre y (by simp [hy])
  refine ⟨h1, ?_, ?_⟩
  · unfold utilsFindCustomModel
    rw [h1]
  · intro models hnone
    unfold utilsFindCustomModel
    rw [hnone]

/-- Claim C7, witness: the amended theorem applied at a configuration
where a non-matching model precedes the matching one and a duplicate of
the key follows it. -/
theorem C7_witness :
    (findCustomModel "m|p"
        ([{ name := "x", provider := "p" }] ++
          { name := "m", provider := "p" } ::
            [{ name := "m", provider := "p", baseUrl := some "https://alt.example" }]) =
      some { name := "m", provider := "p" }) ∧
    (utilsFindCustomModel "m|p"
        ([{ name := "x", provider := "p" }] ++
          { name := "m", provider := "p" } ::
            [{ name := "m", provider := "p", baseUrl := some "https://alt.example" }]) =
      .ok { name := "m", provider := "p" }) ∧
    ∀ models : List CustomModel, findCustomModel "m|p" models = none →
      utilsFindCustomModel "m|p" models =
        .error ("No model configuration found for: " ++ "m|p") :=
  C7_lookup_first_match "m|p" [{ name := "x", provider := "p" }]
    [{ name := "m", provider := "p", baseUrl := some "https://alt.example" }]
    { name := "m", provider := "p" }
    (by decide) (by decide)

/-- Claim C8: `setChain(COPILOT_PLUS_CHAIN)` performs exactly the same
index-readiness step as the VAULT_QA arm — the shared `initializeQAChain`,
which obtains the embeddings API, lazily initializes the database (loaded
afterwards, witnessed by `s1.db`), and optionally reindexes — and then
assigns as the active chain a plain conversational pipeline built from the
current model, memory and prompt, finally persisting the mode. -/
theorem C8_copilot_plus_builds_both
    (env : Env) (s : ManagerState) (opts : SetChainOptions)
    (s1 : ManagerState) (api db : Nat)
    (hv : env.validateModel s.activeModel = true)
    (hinit : initializeQAChain env s opts = (s1, .ok (api, db))) :
    setChain env s (.known .copilot_plus_chain) opts =
      ({ s1 with
          chain := some (.llmChain s.activeModel (opts.prompt.getD env.chatPrompt))
          storedChainType := .known .copilot_plus_chain }, none) ∧
    s1.db = some db := by
  exact ⟨setChain_copilot_eq env s opts s1 (api, db) hv hinit,
    initializeQAChain_db env s opts s1 api db hinit⟩

/-- Claim C8, witness: the theorem applied at the all-valid environment
starting from a state with no loaded database (exercising the lazy
initialization). -/
theorem C8_witness :
    (setChain envAllValid baseState (.known .copilot_plus_chain) {} =
      ({ { baseState with db := some 3 } with
          chain := some (.llmChain baseState.activeModel
            (({} : SetChainOptions).prompt.getD envAllValid.chatPrompt))
          storedChainType := .known .copilot_plus_chain }, none)) ∧
    ({ baseState with db := some 3 } : ManagerState).db = some 3 :=
  C8_copilot_plus_builds_both envAllValid baseState {}
    { baseState with db := some 3 } 7 3 rfl rfl

/-- Helper: `initializeQAChain` neither reads nor writes the memory
contents — running it from a state with any other memory contents gives
the same outcome with that memory carried through untouched. -/
theorem initializeQAChain_memory_agnostic (env : Env) (s : ManagerState)
    (opts : SetChainOptions) (m : List (String × String)) :
    initializeQAChain env { s with memory := m } opts =
      ({ (initializeQAChain env s opts).1 with memory := m },
        (initializeQAChain env s opts).2) := by
  obtain ⟨vm, eapi, dbr, ams, mk, sp, cp, msc, dbg, bd⟩ := env
  obtain ⟨ch, rch, sct, mem, am, db, ric, nts, lgs⟩ := s
  obtain ⟨pr, ri⟩ := opts
  unfold initializeQAChain reindexStep
  rcases eapi with _ | api
  · rfl
  · rcases db with _ | d
    · rcases dbr with _ | d' <;> rcases ri with _ | _ <;> rfl
    · rcases ri with _ | _ <;> rfl

/-- Helper: `setChain` neither reads nor writes the memory contents. -/
theorem setChain_memory_agnostic (env : Env) (s : ManagerState)
    (ct : ChainTypeValue) (opts : SetChainOptions) (m : List (String × String)) :
    setChain env { s with memory := m } ct opts =
      ({ (setChain env s ct opts).1 with memory := m },
        (setChain env s ct opts).2) := by
  obtain ⟨vm, eapi, dbr, ams, mk, sp, cp, msc, dbg, bd⟩ := env
  obtain ⟨ch, rch, sct, mem, am, db, ric, nts, lgs⟩ := s
  obtain ⟨pr, ri⟩ := opts
  unfold setChain initializeQAChain reindexStep
  rcases hvm : vm am with _ | _
  · simp only [hvm]
    rfl
  · simp only [hvm]
    rcases ct with _ | t | str
    · rfl
    · rcases t with _ | _ | _
      · rfl
      · rcases eapi with _ | api
        · rfl
        · rcases db with _ | d
          · rcases dbr with _ | d' <;> rcases ri with _ | _ <;> rfl
          · rcases ri with _ | _ <;> rfl
      · rcases eapi with _ | api
        · rfl
        · rcases db with _ | d
          · rcases dbr with _ | d' <;> rcases ri with _ | _ <;> rfl
          · rcases ri with _ | _ <;> rfl
    · rfl

/-- Claim C9: for every chain type value and options, `setChain` neither
writes the Memory Store's contents (after the call the memory holds
exactly the pairs it held before) nor reads them (running the same call
from any other memory contents produces the identical result, with that
memory carried through). -/
theorem C9_setChain_memory_mode_agnostic (env : Env) (s : ManagerState)
    (ct : ChainTypeValue) (opts : SetChainOptions)
    (m : List (String × String)) :
    ((setChain env s ct opts).1).memory = s.memory ∧
    setChain env { s with memory := m } ct opts =
      ({ (setChain env s ct opts).1 with memory := m },
        (setChain env s ct opts).2) :=
  ⟨(setChain_frame env s ct opts).1, setChain_memory_agnostic env s ct opts m⟩

/-- Claim C10: `setChain` persists the chain type only after the new
pipeline has been fully constructed and assigned.  First conjunct: on
every early exit — an error escaping the call, or an unusable chat model —
the active chain, the retrieval chain and the persisted chain type are all
exactly as before.  Second conjunct: whenever the persisted chain type did
change, the call returned normally, the persisted type is the requested
one, and the corresponding pipeline slot holds the freshly constructed
pipeline for the current model. -/
theorem C10_setChain_commit_order (env : Env) (s : ManagerState)
    (ct : ChainTypeValue) (opts : SetChainOptions) :
    (((setChain env s ct opts).2.isSome = true ∨
        env.validateModel s.activeModel = false) →
      ((setChain env s ct opts).1).chain = s.chain ∧
      ((setChain env s ct opts).1).retrievalChain = s.retrievalChain ∧
      ((setChain env s ct opts).1).storedChainType = s.storedChainType) ∧
    (((setChain env s ct opts).1).storedChainType ≠ s.storedChainType →
      (setChain env s ct opts).2 = none ∧
      ((setChain env s ct opts).1).storedChainType = ct ∧
      ((ct = .known .llm_chain ∨ ct = .known .copilot_plus_chain →
          ((setChain env s ct opts).1).chain =
            some (.llmChain s.activeModel (opts.prompt.getD env.chatPrompt))) ∧
        (ct = .known .vault_qa_chain →
          ∃ retr, ((setChain env s ct opts).1).retrievalChain =
            some (.retrievalQA s.activeModel retr env.systemPrompt)))) := by
  rcases hv : env.validateModel s.activeModel with _ | _
  · rw [setChain_invalid_model_eq env s ct opts hv]
    refine ⟨fun _ => ⟨rfl, rfl, rfl⟩, fun hne => absurd rfl hne⟩
  · rcases ct with _ | t | str
    · rw [setChain_null_eq env s opts hv]
      refine ⟨fun _ => ⟨rfl, rfl, rfl⟩, fun hne => absurd rfl hne⟩
    · rcases t with _ | _ | _
      · rw [setChain_llm_eq env s opts hv]
        refine ⟨fun hor => ?_, fun _ => ⟨rfl, rfl, fun _ => rfl, fun hvq => ?_⟩⟩
        · rcases hor with hs | hf
          · simp at hs
          · exact absurd hf (by simp)
        · exact absurd hvq (by simp)
      · rcases hinit : initializeQAChain env s opts with ⟨s1, r⟩
        have hpres := initializeQAChain_preserves env s opts
        rw [hinit] at hpres
        simp only at hpres
        rcases r with e | ⟨api, db⟩
        · rw [setChain_vault_err env s opts s1 e hv hinit]
          refine ⟨fun _ => ⟨hpres.1, hpres.2.1, hpres.2.2.1⟩, fun hne => ?_⟩
          exact absurd hpres.2.2.1 hne
        · rw [setChain_vault_eq env s opts s1 api db hv hinit]
          refine ⟨fun hor => ?_, fun _ => ⟨rfl, rfl, fun hll => ?_, fun _ => ?_⟩⟩
          · rcases hor with hs | hf
            · simp at hs
            · exact absurd hf (by simp)
          · rcases hll with h1 | h1 <;> exact absurd h1 (by simp)
          · exact ⟨_, rfl⟩
      · rcases hinit : initializeQAChain env s opts with ⟨s1, r⟩
        have hpres := initializeQAChain_preserves env s opts
        rw [hinit] at hpres
        simp only at hpres
        rcases r with e | p
        · rw [setChain_copilot_err env s opts s1 e hv hinit]
          refine ⟨fun _ => ⟨hpres.1, hpres.2.1, hpres.2.2.1⟩, fun hne => ?_⟩
          exact absurd hpres.2.2.1 hne
        · rw [setChain_copilot_eq env s opts s1 p hv hinit]
          refine ⟨fun hor => ?_, fun _ => ⟨rfl, rfl, fun _ => rfl, fun hvq => ?_⟩⟩
          · rcases hor with hs | hf
            · simp at hs
            · exact absurd hf (by simp)
          · exact absurd hvq (by simp)
    · rw [setChain_other_eq env s str opts hv]
      refine ⟨fun hor => ⟨rfl, rfl, rfl⟩, fun hne => absurd rfl hne⟩

/-- Claim C9, witness: the memory-frame theorem applied at a concrete
switch to VAULT_QA with a nonempty memory. -/
theorem C9_witness :
    ((setChain envAllValid
        { baseState with memory := [("q", "a")] } (.known .vault_qa_chain)
        {}).1).memory = ({ baseState with memory := [("q", "a")] } : ManagerState).memory ∧
    setChain envAllValid
        { { baseState with memory := [("q", "a")] } with memory := [] }
        (.known .vault_qa_chain) {} =
      ({ (setChain envAllValid { baseState with memory := [("q", "a")] }
            (.known .vault_qa_chain) {}).1 with memory := [] },
        (setChain envAllValid { baseState with memory := [("q", "a")] }
          (.known .vault_qa_chain) {}).2) :=
  C9_setChain_memory_mode_agnostic envAllValid
    { baseState with memory := [("q", "a")] } (.known .vault_qa_chain) {} []

/-- Claim C10, witness: the commit-order theorem applied at a concrete
failing VAULT_QA switch (no embeddings API), where the early-exit premise
actually holds. -/
theorem C10_witness :
    (((setChain envNoEmbeddings stateWithRetrieval (.known .vault_qa_chain)
          {}).2.isSome = true ∨
        envNoEmbeddings.validateModel stateWithRetrieval.activeModel = false) →
      ((setChain envNoEmbeddings stateWithRetrieval (.known .vault_qa_chain)
          {}).1).chain = stateWithRetrieval.chain ∧
      ((setChain envNoEmbeddings stateWithRetrieval (.known .vault_qa_chain)
          {}).1).retrievalChain = stateWithRetrieval.retrievalChain ∧
      ((setChain envNoEmbeddings stateWithRetrieval (.known .vault_qa_chain)
          {}).1).storedChainType = stateWithRetrieval.storedChainType) ∧
    (((setChain envNoEmbeddings stateWithRetrieval (.known .vault_qa_chain)
          {}).1).storedChainType ≠ stateWithRetrieval.storedChainType →
      (setChain envNoEmbeddings stateWithRetrieval (.known .vault_qa_chain)
          {}).2 = none ∧
      ((setChain envNoEmbeddings stateWithRetrieval (.known .vault_qa_chain)
          {}).1).storedChainType = .known .vault_qa_chain ∧
      (((.known .vault_qa_chain : ChainTypeValue) = .known .llm_chain ∨
          (.known .vault_qa_chain : ChainTypeValue) = .known .copilot_plus_chain →
          ((setChain envNoEmbeddings stateWithRetrieval (.known .vault_qa_chain)
              {}).1).chain =
            some (.llmChain stateWithRetrieval.activeModel
              (({} : SetChainOptions).prompt.getD envNoEmbeddings.chatPrompt))) ∧
        ((.known .vault_qa_chain : ChainTypeValue) = .known .vault_qa_chain →
          ∃ retr,
            ((setChain envNoEmbeddings stateWithRetrieval (.known .vault_qa_chain)
                {}).1).retrievalChain =
              some (.retrievalQA stateWithRetrieval.activeModel retr
                envNoEmbeddings.systemPrompt)))) :=
  C10_setChain_commit_order envNoEmbeddings stateWithRetrieval
    (.known .vault_qa_chain) {}

end ObsidianCopilot
